import Mathlib

/-!
# Verification of the Tabata local-first persistence / background-sync layer

Shallow embedding of the sync coordinator (`StorageService` in the
storageService module: the variant with metadata-based conflict detection,
debounced Drive saves and a backoff retry queue) and of the Drive client
(`googleDriveService.ts`).

Modelling conventions:
* Records (`Client` values) are opaque to this layer; the coordinator never
  inspects their fields except for diagnostic logging.  They are modelled as
  JSON values, which is exactly what crosses the `JSON.stringify` /
  `JSON.parse` boundary.
* ISO-8601 timestamp strings are compared in the source only through
  `new Date(s).getTime()`; they are modelled directly as epoch milliseconds
  (`Nat`).
* `localStorage` cells are modelled by `Option` fields (`none` = key absent).
  The cell under `fittrack_clients` is the raw stored string as seen through
  `JSON.parse`: `none` = absent, `some (.error ())` = a string `JSON.parse`
  rejects, `some (.ok j)` = a string parsing to the JSON value `j`.
* Network calls and DOM events are recorded as explicit `Effect`s; the
  responses the environment would produce (metadata probe, download body,
  upload outcome) are passed in as parameters of each step.
* Timer flags (`saveTimeout`, `retryTimer`) mean "a scheduled callback has not
  yet run".  In the source the variables keep a stale (fired) handle on some
  paths, but that stale handle only ever feeds a harmless `clearTimeout`, so
  it is not observable.
-/

namespace Tabata

/-- JSON values, as produced by `JSON.parse`. -/
inductive Json where
  | null
  | bool (b : Bool)
  | num (n : Int)
  | str (s : String)
  | arr (elems : List Json)
  | obj (fields : List (String × Json))

/-- `ENABLE_GOOGLE_LOGIN` from `config.ts`. -/
def ENABLE_GOOGLE_LOGIN : Bool := true

/-- The `localStorage` cells this layer reads and writes
(`fittrack_clients`, `fittrack_user`, `fittrack_last_synced`,
`fittrack_last_drive_sync`, `fittrack_access_token`). -/
structure LocalStore where
  clientsCell : Option (Except Unit Json)
  userCell : Option Json
  syncedAt : Option Nat
  driveSyncAt : Option Nat
  tokenCell : Option String

/-- The module-level mutable state of the storage service. -/
structure SyncState where
  store : LocalStore
  isOnline : Bool
  accessToken : Option String
  /-- a scheduled (unfired) debounce callback exists -/
  saveTimeout : Bool
  pendingClients : Option (List Json)
  lastKnownCount : Nat
  failedSaveQueue : List (List Json)
  /-- a scheduled (unfired) retry callback exists -/
  retryTimer : Bool
  retryDelay : Nat

/-- `window` events dispatched by the storage service. -/
inductive Event where
  | syncConflict (lastSyncTime driveTime : Nat)
  | clientsUpdated
deriving DecidableEq

/-- Externally visible actions of one step: remote calls and dispatched
events, in program order. -/
inductive Effect where
  | getMetadata
  | download
  | upload (clients : List Json)
  | emit (e : Event)

/-- The payloads of the `saveToDrive` calls in an effect trace. -/
def uploadsOf (effs : List Effect) : List (List Json) :=
  effs.filterMap fun e =>
    match e with
    | .upload cs => some cs
    | _ => none

/-- The parse step at the top of `loadClients`:
`stored ? JSON.parse(stored) : []` inside `try`, then the `Array.isArray`
check; any parse exception is caught and, like non-array content, yields the
empty collection. -/
def parseLocalClients (cell : Option (Except Unit Json)) : List Json :=
  match cell with
  | none => []
  | some (.error _) => []
  | some (.ok (.arr xs)) => xs
  | some (.ok _) => []

/-- The synchronous body of `StorageService.saveClients`: the empty-array
guard, the `lastKnownCount` update, the immediate `localStorage` write, and —
when online with a token — replacement of the pending payload and reset of
the single debounce timer.  (The debounced callback itself is `debounceFire`.) -/
def saveClientsSync (now : Nat) (clients : List Json) (st : SyncState) : SyncState :=
  if clients.isEmpty ∧ 0 < st.lastKnownCount then st
  else
    let st1 := if clients.isEmpty then st else { st with lastKnownCount := clients.length }
    let st2 := { st1 with store := { st1.store with
                   clientsCell := some (Except.ok (Json.arr clients)),
                   syncedAt := some now } }
    if st2.isOnline && st2.accessToken.isSome then
      { st2 with pendingClients := some clients, saveTimeout := true }
    else st2

/-- The conflict baseline used by the debounced save: `fittrack_last_drive_sync`
if present, else the `fittrack_last_synced` fallback, else `0`. -/
def baselineSyncTime (s : LocalStore) : Nat :=
  match s.driveSyncAt with
  | some t => t
  | none =>
    match s.syncedAt with
    | some t => t
    | none => 0

/-- Outcome of one `saveToDrive` call as classified by the coordinator's
error handling: success with the new remote `modifiedTime`, an auth-class
message (`401` / `Unauthorized` / `invalid authentication credentials`), or
any other failure. -/
inductive UploadResult where
  | ok (modifiedTime : Nat)
  | authErr
  | otherErr
deriving DecidableEq

/-- `retryFailedSaves`'s synchronous part: nothing happens on an empty queue;
otherwise any previous retry timer is cleared and one timer is scheduled at
the current `retryDelay`. -/
def retrySchedule (st : SyncState) : SyncState :=
  if st.failedSaveQueue.isEmpty then st
  else { st with retryTimer := true }

/-- The no-conflict continuation of the debounced callback: the `saveToDrive`
call and its success / failure handling. -/
def debouncePush (pending : List Json) (uploadResult : UploadResult)
    (st : SyncState) : SyncState × List Effect :=
  match uploadResult with
  | .ok t =>
    ({ st with store := { st.store with driveSyncAt := some t },
               pendingClients := none },
     [Effect.getMetadata, Effect.upload pending])
  | _ =>
    let st := { st with pendingClients := none,
                        failedSaveQueue := st.failedSaveQueue ++ [pending] }
    (retrySchedule st, [Effect.getMetadata, Effect.upload pending])

/-- The debounced callback of `saveClients`: metadata probe, conflict check
against `baselineSyncTime` with the 5s skew buffer, then the upload; on
success the sync baseline advances and the payload clears, on failure the
payload moves to the retry queue and a retry is scheduled.
`metadata` is the `getFileMetadata` response (`modifiedTime` in ms, `none` if
the probe failed or no file exists); `uploadResult` is the `saveToDrive`
outcome, consulted only if the upload is reached. -/
def debounceFire (metadata : Option Nat) (uploadResult : UploadResult)
    (st : SyncState) : SyncState × List Effect :=
  let st := { st with saveTimeout := false }
  match st.pendingClients with
  | none => (st, [])
  | some pending =>
    let lastSyncTime := baselineSyncTime st.store
    match metadata with
    | some driveTime =>
      if lastSyncTime + 5000 < driveTime then
        (st, [Effect.getMetadata, Effect.emit (Event.syncConflict lastSyncTime driveTime)])
      else debouncePush pending uploadResult st
    | none => debouncePush pending uploadResult st

/-- The retry timer callback inside `retryFailedSaves`: gate on
online-and-token, `shift` the oldest payload off the queue, try the upload;
on success reset the delay to 2000 ms and reschedule if more work remains; on
an auth-class failure stop (the remaining queue is kept, but the shifted
payload is not put back); on any other failure `unshift` the payload back,
double the delay up to the 30000 ms cap, and reschedule. -/
def retryTimerFire (uploadResult : UploadResult) (st : SyncState) :
    SyncState × List Effect :=
  let st := { st with retryTimer := false }
  if !(st.isOnline && st.accessToken.isSome) then (st, [])
  else
    match st.failedSaveQueue with
    | [] => (st, [])
    | clientsToSave :: rest =>
      match uploadResult with
      | .ok t =>
        let st := { st with store := { st.store with driveSyncAt := some t },
                            failedSaveQueue := rest,
                            retryDelay := 2000 }
        (retrySchedule st, [Effect.upload clientsToSave])
      | .authErr =>
        ({ st with failedSaveQueue := rest }, [Effect.upload clientsToSave])
      | .otherErr =>
        let st := { st with failedSaveQueue := clientsToSave :: rest,
                            retryDelay := min (st.retryDelay * 2) 30000 }
        (retrySchedule st, [Effect.upload clientsToSave])

/-- `StorageService.syncFromDrive` (background reconciliation): gate on
online-and-token, metadata probe, freshness checks (`driveSyncAt` primary
with a 1s buffer, `syncedAt` fallback with a 5s buffer), then download and —
if a document with a `clients` field came back — apply it to the local cache,
advance both bookkeeping timestamps, and dispatch `clients-updated`.
`download` is the `loadFromDrive` result (`none` = no file, a missing
`clients` field, or any caught failure).  Exceptions are caught; nothing
propagates.  The freshness check lives in `syncSkip`: skip the download when
the Drive file has not changed since the last recorded sync (1s buffer), or —
with no sync record — when the local save time is clearly ahead of the Drive
time (5s buffer). -/
def syncSkip (s : LocalStore) (metadata : Option Nat) : Bool :=
  match metadata with
  | some driveTime =>
    match s.driveSyncAt with
    | some lastSyncTime => decide (driveTime ≤ lastSyncTime + 1000)
    | none =>
      match s.syncedAt with
      | some localTime => decide (driveTime + 5000 < localTime)
      | none => false
  | none => false

def syncFromDrive (now : Nat) (metadata : Option Nat)
    (download : Option (List Json)) (st : SyncState) : SyncState × List Effect :=
  if !(st.isOnline && st.accessToken.isSome) then (st, [])
  else
    if syncSkip st.store metadata then (st, [Effect.getMetadata])
    else
      match download with
      | some clients =>
        let newDriveSync :=
          match metadata with
          | some t => t
          | none => now
        ({ st with store := { st.store with
             clientsCell := some (Except.ok (Json.arr clients)),
             syncedAt := some now,
             driveSyncAt := some newDriveSync } },
         [Effect.getMetadata, Effect.download, Effect.emit Event.clientsUpdated])
      | none => (st, [Effect.getMetadata, Effect.download])

/-- The `'online'` listener installed by `StorageService.initialize`:
recompute `isOnline` from `ENABLE_GOOGLE_LOGIN && !!accessToken`, and if
online run `retryFailedSaves` (which only schedules a timer) followed by
`syncFromDrive`. -/
def onlineEvent (now : Nat) (metadata : Option Nat)
    (download : Option (List Json)) (st : SyncState) : SyncState × List Effect :=
  let st := { st with isOnline := ENABLE_GOOGLE_LOGIN && st.accessToken.isSome }
  if st.isOnline then
    syncFromDrive now metadata download (retrySchedule st)
  else (st, [])

/-- The `'offline'` listener installed by `StorageService.initialize`. -/
def offlineEvent (st : SyncState) : SyncState :=
  { st with isOnline := false }

/-- `StorageService.loadClients`.  Returns (new state, returned collection,
effects).  If the local parse yields a non-empty collection it is returned
immediately and unchanged — the background `syncFromDrive` kicked off on that
path is a separate later step (modelled by `syncFromDrive` itself) whose
outcome the caller never waits on.  Only on an empty local cache does the
call block on the remote: a successful download seeds the cache and both
bookkeeping timestamps (`driveSyncAt` from the follow-up metadata probe,
falling back to `now`); any failure falls through to the empty collection. -/
def loadClients (now : Nat) (download : Option (List Json))
    (metadata : Option Nat) (st : SyncState) :
    SyncState × List Json × List Effect :=
  let localClients := parseLocalClients st.store.clientsCell
  if !localClients.isEmpty then (st, localClients, [])
  else if st.isOnline && st.accessToken.isSome then
    match download with
    | some clients =>
      let newDriveSync :=
        match metadata with
        | some t => t
        | none => now
      ({ st with store := { st.store with
           clientsCell := some (Except.ok (Json.arr clients)),
           syncedAt := some now,
           driveSyncAt := some newDriveSync } },
       clients, [Effect.download, Effect.getMetadata])
    | none => (st, [], [Effect.download])
  else (st, [], [])

/-- `StorageService.deleteAccount`: cancel both timers, drop the retry queue
and pending payload, soft-delete the remote document when connected (its
failure only flips the returned flag), remove every local storage key, and
reset the in-memory token and count.  `remoteDeleteOk` is the outcome the
`deleteDataFile` call would have (ignored when not connected). -/
def deleteAccount (remoteDeleteOk : Bool) (st : SyncState) : SyncState × Bool :=
  let st := { st with saveTimeout := false, retryTimer := false,
                      failedSaveQueue := [], pendingClients := none }
  let remoteSuccess :=
    if st.isOnline && st.accessToken.isSome then remoteDeleteOk else true
  let st := { st with
    store := { clientsCell := none, userCell := none, syncedAt := none,
               driveSyncAt := none, tokenCell := none },
    accessToken := none,
    lastKnownCount := 0 }
  (st, remoteSuccess)

/-! ## The Drive client (`googleDriveService.ts`) -/

/-- The module-level handle cache of `googleDriveService.ts`
(`cachedFolderId`, `cachedFileId`); `invalidateCache` resets both to `null`. -/
structure DriveCache where
  cachedFolderId : Option String
  cachedFileId : Option String
deriving DecidableEq

/-- Outcome of one whole locate+upload pass inside `saveToDrive`, as
classified by its error handling: success returning the new remote
`modifiedTime`; a 404-class failure (HTTP 404 on the update path, or a thrown
message containing `404` / `File not found`); or any other failure with its
message. -/
inductive AttemptOutcome where
  | ok (modifiedTime : Nat)
  | notFound404 (msg : String)
  | otherErr (msg : String)
deriving DecidableEq

/-- What a `saveToDrive` call did: its result, how many locate+upload
attempts it made, and — when a retry happened — the cached handles that were
in force when the retry attempt was issued. -/
structure SaveOutcome where
  result : Except String Nat
  attempts : Nat
  cacheAtRetry : Option DriveCache

/-- `saveToDrive(data, retry = true)`: on a 404-class failure of the first
locate+upload pass it calls `invalidateCache()` and re-enters itself once
with `retry = false`; that second pass propagates any failure (its own
404-class failure included) to the caller.  A non-404 failure of the first
pass propagates immediately.  The per-pass outcomes are environmental
(`first`, `second`); `second` is consulted only if the retry is reached.
The initial handle cache `_cache` shapes which HTTP calls a pass makes (and
so which outcome the environment produces) but not the control flow here;
only its invalidation before the retry is observable in this model. -/
def saveToDrive (_cache : DriveCache) (first second : AttemptOutcome) :
    SaveOutcome :=
  match first with
  | .ok t => { result := .ok t, attempts := 1, cacheAtRetry := none }
  | .notFound404 _ =>
    let invalidated : DriveCache := { cachedFolderId := none, cachedFileId := none }
    match second with
    | .ok t => { result := .ok t, attempts := 2, cacheAtRetry := some invalidated }
    | .notFound404 m => { result := .error m, attempts := 2, cacheAtRetry := some invalidated }
    | .otherErr m => { result := .error m, attempts := 2, cacheAtRetry := some invalidated }
  | .otherErr m => { result := .error m, attempts := 1, cacheAtRetry := none }

/-- The concrete pre-state of the C4 scenario: three cached records, offline,
token available, clean queue and timers. -/
def c4Base : SyncState :=
  { store := { clientsCell :=
                 some (Except.ok (Json.arr [Json.num 1, Json.num 2, Json.num 3])),
               userCell := none, syncedAt := some 1000,
               driveSyncAt := some 1000, tokenCell := some "tok" },
    isOnline := false, accessToken := some "tok", saveTimeout := false,
    pendingClients := none, lastKnownCount := 3,
    failedSaveQueue := [], retryTimer := false, retryDelay := 2000 }

/-- The five-record payload of the C4 scenario. -/
def c4Five : List Json :=
  [Json.num 1, Json.num 2, Json.num 3, Json.num 4, Json.num 5]

/-! ## Helper lemmas -/

lemma isEmpty_false_of_ne_nil {α : Type} {l : List α} (h : l ≠ []) :
    l.isEmpty = false := by
  cases l with
  | nil => exact absurd rfl h
  | cons a t => rfl

lemma saveClientsSync_of_ne_nil (now : Nat) (clients : List Json)
    (st : SyncState) (hne : clients ≠ []) :
    saveClientsSync now clients st =
      (let st2 : SyncState := { st with
         lastKnownCount := clients.length,
         store := { st.store with
           clientsCell := some (Except.ok (Json.arr clients)),
           syncedAt := some now } }
       if st2.isOnline && st2.accessToken.isSome then
         { st2 with pendingClients := some clients, saveTimeout := true }
       else st2) := by
  unfold saveClientsSync
  rw [if_neg]
  · simp [isEmpty_false_of_ne_nil hne]
  · simp [isEmpty_false_of_ne_nil hne]

lemma saveClientsSync_nil_of_count_pos (now : Nat) (st : SyncState)
    (hcount : 0 < st.lastKnownCount) :
    saveClientsSync now [] st = st := by
  unfold saveClientsSync
  rw [if_pos ⟨rfl, hcount⟩]

lemma loadClients_of_local_ne_nil (now : Nat) (dl : Option (List Json))
    (md : Option Nat) (st : SyncState)
    (h : parseLocalClients st.store.clientsCell ≠ []) :
    loadClients now dl md st = (st, parseLocalClients st.store.clientsCell, []) := by
  unfold loadClients
  simp [isEmpty_false_of_ne_nil h]

/-! ## The claims -/

/-- C9: the local parse in `loadClients` is total over the stored cell: a
missing key, a string `JSON.parse` rejects, and parseable content that is not
an array all yield the empty collection instead of an exception; and an
offline `loadClients` over such a cell returns the empty collection. -/
theorem C9_load_total (cell : Option (Except Unit Json))
    (h : ∀ xs, cell ≠ some (Except.ok (Json.arr xs))) :
    parseLocalClients cell = [] ∧
    ∀ now dl md st, st.store.clientsCell = cell → st.isOnline = false →
      (loadClients now dl md st).2.1 = [] := by
  have hp : parseLocalClients cell = [] := by
    cases cell with
    | none => rfl
    | some r =>
      cases r with
      | error e => rfl
      | ok j =>
        cases j with
        | arr xs => exact absurd rfl (h xs)
        | null => rfl
        | bool b => rfl
        | num n => rfl
        | str s => rfl
        | obj f => rfl
  refine ⟨hp, ?_⟩
  intro now dl md st hcell hoff
  unfold loadClients
  simp [hcell, hp, hoff]

/-- Witness for C9 at a parseable non-array cell. -/
theorem C9_load_total_witness :
    parseLocalClients (some (Except.ok (Json.num 3))) = [] := by
  have h := C9_load_total (some (Except.ok (Json.num 3)))
    (by intro xs hx; simp at hx)
  exact h.1

/-- C10: `deleteAccount` tears local state down unconditionally — both timers
cancelled, retry queue and pending payload dropped, every storage key
removed, in-memory token and count reset — and returns `false` exactly when
it was connected and the remote delete failed. -/
theorem C10_deleteAccount_teardown (st : SyncState) (remoteDeleteOk : Bool) :
    (deleteAccount remoteDeleteOk st).1.saveTimeout = false ∧
    (deleteAccount remoteDeleteOk st).1.retryTimer = false ∧
    (deleteAccount remoteDeleteOk st).1.failedSaveQueue = [] ∧
    (deleteAccount remoteDeleteOk st).1.pendingClients = none ∧
    (deleteAccount remoteDeleteOk st).1.store.clientsCell = none ∧
    (deleteAccount remoteDeleteOk st).1.store.userCell = none ∧
    (deleteAccount remoteDeleteOk st).1.store.syncedAt = none ∧
    (deleteAccount remoteDeleteOk st).1.store.driveSyncAt = none ∧
    (deleteAccount remoteDeleteOk st).1.store.tokenCell = none ∧
    (deleteAccount remoteDeleteOk st).1.accessToken = none ∧
    (deleteAccount remoteDeleteOk st).1.lastKnownCount = 0 ∧
    ((deleteAccount remoteDeleteOk st).2 = false ↔
      st.isOnline = true ∧ st.accessToken.isSome = true ∧ remoteDeleteOk = false) := by
  refine ⟨rfl, rfl, rfl, rfl, rfl, rfl, rfl, rfl, rfl, rfl, rfl, ?_⟩
  show (if st.isOnline && st.accessToken.isSome then remoteDeleteOk else true) = false ↔ _
  cases hon : st.isOnline <;> cases htok : st.accessToken.isSome <;>
    cases remoteDeleteOk <;> simp

/-- C8: a 404-class failure of the first locate+upload pass inside
`saveToDrive` invalidates both cached handles, retries the whole sequence
exactly once, and propagates any failure of that second pass without a
further retry. -/
theorem C8_save_404_retry (cache : DriveCache) (msg : String)
    (second : AttemptOutcome) :
    (saveToDrive cache (.notFound404 msg) second).attempts = 2 ∧
    (saveToDrive cache (.notFound404 msg) second).cacheAtRetry =
      some { cachedFolderId := none, cachedFileId := none } ∧
    (∀ m, second = .notFound404 m →
      (saveToDrive cache (.notFound404 msg) second).result = .error m) ∧
    (∀ m, second = .otherErr m →
      (saveToDrive cache (.notFound404 msg) second).result = .error m) ∧
    (∀ t, second = .ok t →
      (saveToDrive cache (.notFound404 msg) second).result = .ok t) := by
  cases second <;> simp [saveToDrive]

/-- Witness for C8: second attempt fails with a non-404 error, which is
propagated after exactly one retry against invalidated handles. -/
theorem C8_save_404_retry_witness :
    (saveToDrive { cachedFolderId := some "folder", cachedFileId := some "file" }
        (.notFound404 "File not found") (.otherErr "boom")).attempts = 2 ∧
    (saveToDrive { cachedFolderId := some "folder", cachedFileId := some "file" }
        (.notFound404 "File not found") (.otherErr "boom")).result = .error "boom" := by
  have h := C8_save_404_retry
    { cachedFolderId := some "folder", cachedFileId := some "file" }
    "File not found" (.otherErr "boom")
  exact ⟨h.1, h.2.2.2.1 "boom" rfl⟩

/-- C1: when the debounced push fires and the remote `modifiedTime` exceeds
the sync baseline (`fittrack_last_drive_sync`, falling back to
`fittrack_last_synced`) by more than the 5s tolerance, no upload happens: a
`sync-conflict` event carrying both timestamps is dispatched, and the local
store, retry queue and pending payload are all left in place (only the fired
timer is cleared). -/
theorem C1_conflict_aborts_push (driveTime : Nat) (ur : UploadResult)
    (st : SyncState) (p : List Json)
    (hpend : st.pendingClients = some p)
    (hconf : baselineSyncTime st.store + 5000 < driveTime) :
    (debounceFire (some driveTime) ur st).1 = { st with saveTimeout := false } ∧
    (debounceFire (some driveTime) ur st).1.pendingClients = some p ∧
    (debounceFire (some driveTime) ur st).1.store = st.store ∧
    (debounceFire (some driveTime) ur st).1.failedSaveQueue = st.failedSaveQueue ∧
    (debounceFire (some driveTime) ur st).2 =
      [Effect.getMetadata,
       Effect.emit (Event.syncConflict (baselineSyncTime st.store) driveTime)] ∧
    uploadsOf (debounceFire (some driveTime) ur st).2 = [] := by
  have hfire : debounceFire (some driveTime) ur st =
      ({ st with saveTimeout := false },
       [Effect.getMetadata,
        Effect.emit (Event.syncConflict (baselineSyncTime st.store) driveTime)]) := by
    unfold debounceFire
    simp [hpend, if_pos hconf]
  rw [hfire]
  exact ⟨rfl, by simp [hpend], rfl, rfl, rfl, rfl⟩

/-- Witness for C1: baseline 1000 (from `fittrack_last_drive_sync`), remote
modified at 7000, pending payload one record. -/
theorem C1_conflict_aborts_push_witness :
    (debounceFire (some 7000) (.ok 9999)
      { store := { clientsCell := some (Except.ok (Json.arr [Json.null])),
                   userCell := none, syncedAt := some 900,
                   driveSyncAt := some 1000, tokenCell := some "tok" },
        isOnline := true, accessToken := some "tok", saveTimeout := true,
        pendingClients := some [Json.null], lastKnownCount := 1,
        failedSaveQueue := [], retryTimer := false, retryDelay := 2000 }).2 =
      [Effect.getMetadata, Effect.emit (Event.syncConflict 1000 7000)] := by
  have h := C1_conflict_aborts_push 7000 (.ok 9999)
    { store := { clientsCell := some (Except.ok (Json.arr [Json.null])),
                 userCell := none, syncedAt := some 900,
                 driveSyncAt := some 1000, tokenCell := some "tok" },
      isOnline := true, accessToken := some "tok", saveTimeout := true,
      pendingClients := some [Json.null], lastKnownCount := 1,
      failedSaveQueue := [], retryTimer := false, retryDelay := 2000 }
    [Json.null] rfl (by norm_num [baselineSyncTime])
  exact h.2.2.2.2.1

/-- C2: `Save([])` when a non-empty collection was previously known
(`lastKnownCount > 0`) is a complete no-op: the state — local cache, pending
payload, timers, queue — is untouched, and a subsequent `Load` still returns
the prior non-empty collection. -/
theorem C2_empty_save_rejected (now : Nat) (st : SyncState) (prior : List Json)
    (hcount : 0 < st.lastKnownCount)
    (hprior : st.store.clientsCell = some (Except.ok (Json.arr prior)))
    (hne : prior ≠ []) :
    saveClientsSync now [] st = st ∧
    ∀ t dl md,
      (loadClients t dl md (saveClientsSync now [] st)).2.1 = prior ∧
      (loadClients t dl md (saveClientsSync now [] st)).1 = st := by
  have hnoop := saveClientsSync_nil_of_count_pos now st hcount
  refine ⟨hnoop, ?_⟩
  intro t dl md
  rw [hnoop]
  have hparse : parseLocalClients st.store.clientsCell = prior := by
    rw [hprior]; rfl
  have hload := loadClients_of_local_ne_nil t dl md st (by rw [hparse]; exact hne)
  rw [hload, hparse]
  exact ⟨rfl, rfl⟩

/-- Witness for C2: one prior record, `Save([])` rejected, `Load` still
returns it. -/
theorem C2_empty_save_rejected_witness :
    (loadClients 5 none none (saveClientsSync 4 []
      { store := { clientsCell := some (Except.ok (Json.arr [Json.str "a"])),
                   userCell := none, syncedAt := some 1, driveSyncAt := none,
                   tokenCell := none },
        isOnline := false, accessToken := none, saveTimeout := false,
        pendingClients := none, lastKnownCount := 1,
        failedSaveQueue := [], retryTimer := false,
        retryDelay := 2000 })).2.1 = [Json.str "a"] := by
  have h := C2_empty_save_rejected 4
    { store := { clientsCell := some (Except.ok (Json.arr [Json.str "a"])),
                 userCell := none, syncedAt := some 1, driveSyncAt := none,
                 tokenCell := none },
      isOnline := false, accessToken := none, saveTimeout := false,
      pendingClients := none, lastKnownCount := 1,
      failedSaveQueue := [], retryTimer := false, retryDelay := 2000 }
    [Json.str "a"] (by norm_num) rfl (by simp)
  exact (h.2 5 none none).1

/-- C6: `Save(R)` with non-empty `R` writes `R` (and the save timestamp) to
the local cache synchronously, and a `Load` issued before the debounce fires
returns exactly `R` without touching the state. -/
theorem C6_local_durability (now t : Nat) (clients : List Json)
    (st : SyncState) (hne : clients ≠ []) :
    (saveClientsSync now clients st).store.clientsCell =
      some (Except.ok (Json.arr clients)) ∧
    (saveClientsSync now clients st).store.syncedAt = some now ∧
    ∀ dl md,
      (loadClients t dl md (saveClientsSync now clients st)).2.1 = clients ∧
      (loadClients t dl md (saveClientsSync now clients st)).1 =
        saveClientsSync now clients st := by
  have hsv := saveClientsSync_of_ne_nil now clients st hne
  have hcell : (saveClientsSync now clients st).store.clientsCell =
      some (Except.ok (Json.arr clients)) := by
    rw [hsv]; dsimp only; split <;> rfl
  have hsync : (saveClientsSync now clients st).store.syncedAt = some now := by
    rw [hsv]; dsimp only; split <;> rfl
  refine ⟨hcell, hsync, ?_⟩
  intro dl md
  have hparse : parseLocalClients (saveClientsSync now clients st).store.clientsCell
      = clients := by rw [hcell]; rfl
  have hload := loadClients_of_local_ne_nil t dl md (saveClientsSync now clients st)
    (by rw [hparse]; exact hne)
  rw [hload, hparse]
  exact ⟨rfl, rfl⟩

/-- Witness for C6: save two records while online, load them back. -/
theorem C6_local_durability_witness :
    (loadClients 9 none none (saveClientsSync 8
      [Json.num 1, Json.num 2]
      { store := { clientsCell := none, userCell := none, syncedAt := none,
                   driveSyncAt := none, tokenCell := some "tok" },
        isOnline := true, accessToken := some "tok", saveTimeout := false,
        pendingClients := none, lastKnownCount := 0,
        failedSaveQueue := [], retryTimer := false,
        retryDelay := 2000 })).2.1 = [Json.num 1, Json.num 2] := by
  have h := C6_local_durability 8 9 [Json.num 1, Json.num 2]
    { store := { clientsCell := none, userCell := none, syncedAt := none,
                 driveSyncAt := none, tokenCell := some "tok" },
      isOnline := true, accessToken := some "tok", saveTimeout := false,
      pendingClients := none, lastKnownCount := 0,
      failedSaveQueue := [], retryTimer := false, retryDelay := 2000 }
    (by simp)
  exact (h.2.2 none none).1

/-- C7: with an empty local cache and a live connection, `loadClients` blocks
on the remote download: a successful download seeds the cache and both
bookkeeping timestamps and is returned; a failed download (or no remote
document) yields the empty collection with the state untouched, never an
exception. -/
theorem C7_empty_cache_load (now : Nat) (st : SyncState) (md : Option Nat)
    (dl : Option (List Json))
    (hempty : parseLocalClients st.store.clientsCell = [])
    (hon : st.isOnline = true) (htok : st.accessToken.isSome = true) :
    (∀ cs, dl = some cs →
      (loadClients now dl md st).2.1 = cs ∧
      (loadClients now dl md st).1.store.clientsCell =
        some (Except.ok (Json.arr cs)) ∧
      (loadClients now dl md st).1.store.syncedAt = some now ∧
      (loadClients now dl md st).1.store.driveSyncAt = some (md.getD now) ∧
      Effect.download ∈ (loadClients now dl md st).2.2) ∧
    (dl = none →
      (loadClients now dl md st).2.1 = [] ∧
      (loadClients now dl md st).1 = st ∧
      Effect.download ∈ (loadClients now dl md st).2.2) := by
  constructor
  · intro cs hdl
    subst hdl
    unfold loadClients
    simp [hempty, hon, htok]
    cases md <;> simp [Option.getD]
  · intro hdl
    subst hdl
    unfold loadClients
    simp [hempty, hon, htok]

/-- Witness for C7: empty cache, successful download of one record. -/
theorem C7_empty_cache_load_witness :
    (loadClients 50 (some [Json.str "c"]) (some 40)
      { store := { clientsCell := none, userCell := none, syncedAt := none,
                   driveSyncAt := none, tokenCell := some "tok" },
        isOnline := true, accessToken := some "tok", saveTimeout := false,
        pendingClients := none, lastKnownCount := 0,
        failedSaveQueue := [], retryTimer := false,
        retryDelay := 2000 }).2.1 = [Json.str "c"] := by
  have h := C7_empty_cache_load 50
    { store := { clientsCell := none, userCell := none, syncedAt := none,
                 driveSyncAt := none, tokenCell := some "tok" },
      isOnline := true, accessToken := some "tok", saveTimeout := false,
      pendingClients := none, lastKnownCount := 0,
      failedSaveQueue := [], retryTimer := false, retryDelay := 2000 }
    (some 40) (some [Json.str "c"]) rfl rfl rfl
  exact (h.1 [Json.str "c"] rfl).1

lemma saveClientsSync_online (now : Nat) (clients : List Json) (st : SyncState)
    (hne : clients ≠ []) (hon : st.isOnline = true)
    (htok : st.accessToken.isSome = true) :
    saveClientsSync now clients st =
      { st with lastKnownCount := clients.length,
                store := { st.store with
                  clientsCell := some (Except.ok (Json.arr clients)),
                  syncedAt := some now },
                pendingClients := some clients,
                saveTimeout := true } := by
  rw [saveClientsSync_of_ne_nil now clients st hne]
  dsimp only
  rw [if_pos (by simp [hon, htok])]

lemma saveClientsSync_offline (now : Nat) (clients : List Json) (st : SyncState)
    (hne : clients ≠ []) (hoff : st.isOnline = false) :
    saveClientsSync now clients st =
      { st with lastKnownCount := clients.length,
                store := { st.store with
                  clientsCell := some (Except.ok (Json.arr clients)),
                  syncedAt := some now } } := by
  rw [saveClientsSync_of_ne_nil now clients st hne]
  dsimp only
  rw [if_neg (by simp [hoff])]

lemma debounceFire_uploads_of_noconflict (md : Option Nat) (ur : UploadResult)
    (st : SyncState) (p : List Json) (hpend : st.pendingClients = some p)
    (hnc : ∀ dt, md = some dt → dt ≤ baselineSyncTime st.store + 5000) :
    uploadsOf (debounceFire md ur st).2 = [p] := by
  unfold debounceFire
  cases md with
  | none =>
    simp only [hpend]
    cases ur <;> simp [debouncePush, uploadsOf]
  | some dt =>
    have hle : ¬ (baselineSyncTime st.store + 5000 < dt) :=
      Nat.not_lt.mpr (hnc dt rfl)
    simp only [hpend]
    rw [if_neg hle]
    cases ur <;> simp [debouncePush, uploadsOf]

lemma retrySchedule_store (st : SyncState) :
    (retrySchedule st).store = st.store := by
  unfold retrySchedule; split <;> rfl

lemma retrySchedule_failedSaveQueue (st : SyncState) :
    (retrySchedule st).failedSaveQueue = st.failedSaveQueue := by
  unfold retrySchedule; split <;> rfl

lemma retrySchedule_retryDelay (st : SyncState) :
    (retrySchedule st).retryDelay = st.retryDelay := by
  unfold retrySchedule; split <;> rfl

lemma retrySchedule_retryTimer_of_empty (st : SyncState)
    (hq : st.failedSaveQueue = []) :
    (retrySchedule st).retryTimer = st.retryTimer := by
  unfold retrySchedule
  rw [if_pos (by simp [hq])]

lemma syncFromDrive_no_upload (now : Nat) (md : Option Nat)
    (dl : Option (List Json)) (st : SyncState) :
    uploadsOf (syncFromDrive now md dl st).2 = [] ∧
    (syncFromDrive now md dl st).1.retryTimer = st.retryTimer ∧
    (syncFromDrive now md dl st).1.failedSaveQueue = st.failedSaveQueue := by
  unfold syncFromDrive
  split
  · exact ⟨rfl, rfl, rfl⟩
  · split
    · exact ⟨rfl, rfl, rfl⟩
    · cases dl <;> exact ⟨rfl, rfl, rfl⟩

/-- C5: a second `Save` inside the debounce window replaces the pending
payload and resets the single outstanding timer; when the debounce then fires
without a conflict, exactly one upload happens and it carries the payload of
the second call. -/
theorem C5_debounce_collapses (st : SyncState) (c1 c2 : List Json)
    (t1 t2 : Nat) (md : Option Nat) (ur : UploadResult)
    (hon : st.isOnline = true) (htok : st.accessToken.isSome = true)
    (h1 : c1 ≠ []) (h2 : c2 ≠ [])
    (hnoconf : ∀ dt, md = some dt →
      dt ≤ baselineSyncTime
        (saveClientsSync t2 c2 (saveClientsSync t1 c1 st)).store + 5000) :
    (saveClientsSync t1 c1 st).pendingClients = some c1 ∧
    (saveClientsSync t1 c1 st).saveTimeout = true ∧
    (saveClientsSync t2 c2 (saveClientsSync t1 c1 st)).pendingClients = some c2 ∧
    (saveClientsSync t2 c2 (saveClientsSync t1 c1 st)).saveTimeout = true ∧
    uploadsOf
      (debounceFire md ur
        (saveClientsSync t2 c2 (saveClientsSync t1 c1 st))).2 = [c2] := by
  have hs1 := saveClientsSync_online t1 c1 st h1 hon htok
  have hon1 : (saveClientsSync t1 c1 st).isOnline = true := by rw [hs1]; exact hon
  have htok1 : (saveClientsSync t1 c1 st).accessToken.isSome = true := by
    rw [hs1]; exact htok
  have hs2 := saveClientsSync_online t2 c2 (saveClientsSync t1 c1 st) h2 hon1 htok1
  have hpend2 : (saveClientsSync t2 c2 (saveClientsSync t1 c1 st)).pendingClients
      = some c2 := by rw [hs2]
  refine ⟨by rw [hs1], by rw [hs1], hpend2, by rw [hs2], ?_⟩
  exact debounceFire_uploads_of_noconflict md ur _ c2 hpend2 hnoconf

/-- Witness for C5: two rapid saves while online, metadata probe finding no
remote file, upload succeeding. -/
theorem C5_debounce_collapses_witness :
    uploadsOf
      (debounceFire none (.ok 77)
        (saveClientsSync 20 [Json.bool true]
          (saveClientsSync 10 [Json.null]
            { store := { clientsCell := none, userCell := none,
                         syncedAt := none, driveSyncAt := none,
                         tokenCell := some "tok" },
              isOnline := true, accessToken := some "tok",
              saveTimeout := false, pendingClients := none,
              lastKnownCount := 0, failedSaveQueue := [],
              retryTimer := false, retryDelay := 2000 }))).2
      = [[Json.bool true]] := by
  have h := C5_debounce_collapses
    { store := { clientsCell := none, userCell := none, syncedAt := none,
                 driveSyncAt := none, tokenCell := some "tok" },
      isOnline := true, accessToken := some "tok", saveTimeout := false,
      pendingClients := none, lastKnownCount := 0, failedSaveQueue := [],
      retryTimer := false, retryDelay := 2000 }
    [Json.null] [Json.bool true] 10 20 none (.ok 77)
    rfl rfl (by simp) (by simp) (fun dt hdt => nomatch hdt)
  exact h.2.2.2.2

lemma onlineEvent_no_upload (now : Nat) (md : Option Nat)
    (dl : Option (List Json)) (st : SyncState)
    (hq : st.failedSaveQueue = []) :
    uploadsOf (onlineEvent now md dl st).2 = [] ∧
    (onlineEvent now md dl st).1.retryTimer = st.retryTimer ∧
    (onlineEvent now md dl st).1.failedSaveQueue = [] := by
  unfold onlineEvent
  dsimp only
  split
  · refine ⟨(syncFromDrive_no_upload now md dl _).1, ?_, ?_⟩
    · rw [(syncFromDrive_no_upload now md dl _).2.1]
      exact retrySchedule_retryTimer_of_empty _ hq
    · rw [(syncFromDrive_no_upload now md dl _).2.2,
        retrySchedule_failedSaveQueue]
      exact hq
  · exact ⟨rfl, rfl, hq⟩

/-- Supporting result for the retry loop: a non-auth failure of a retry
attempt puts the payload back at the head of the queue, doubles the delay up
to the 30s cap, and reschedules the timer. -/
theorem retry_backoff_doubles (st : SyncState) (p : List Json)
    (rest : List (List Json))
    (hon : st.isOnline = true) (htok : st.accessToken.isSome = true)
    (hq : st.failedSaveQueue = p :: rest) :
    (retryTimerFire .otherErr st).1.failedSaveQueue = p :: rest ∧
    (retryTimerFire .otherErr st).1.retryDelay = min (st.retryDelay * 2) 30000 ∧
    (retryTimerFire .otherErr st).1.retryTimer = true ∧
    (retryTimerFire .otherErr st).2 = [Effect.upload p] := by
  unfold retryTimerFire
  simp only [hon, htok, hq]
  exact ⟨rfl, rfl, rfl, rfl⟩

/-- Supporting result for the retry loop: the doubled-and-capped delay is
strictly larger than the previous one until the 30s cap is reached. -/
theorem retry_backoff_strictly_increasing (st : SyncState)
    (hpos : 0 < st.retryDelay) (hcap : st.retryDelay < 30000) :
    st.retryDelay < min (st.retryDelay * 2) 30000 := by
  omega

/-- Supporting result for the retry loop: a successful retry resets the delay
to the 2s base, advances the sync baseline, and reschedules only if more
queued payloads remain. -/
theorem retry_success_resets_delay (st : SyncState) (t : Nat) (p : List Json)
    (rest : List (List Json))
    (hon : st.isOnline = true) (htok : st.accessToken.isSome = true)
    (hq : st.failedSaveQueue = p :: rest) :
    (retryTimerFire (.ok t) st).1.retryDelay = 2000 ∧
    (retryTimerFire (.ok t) st).1.failedSaveQueue = rest ∧
    (retryTimerFire (.ok t) st).1.store.driveSyncAt = some t ∧
    (retryTimerFire (.ok t) st).1.retryTimer = !rest.isEmpty ∧
    (retryTimerFire (.ok t) st).2 = [Effect.upload p] := by
  unfold retryTimerFire retrySchedule
  simp only [hon, htok, hq]
  cases rest with
  | nil => exact ⟨rfl, rfl, rfl, rfl, rfl⟩
  | cons r tail => exact ⟨rfl, rfl, rfl, rfl, rfl⟩

/-- C3 (failing-input evaluation): with two queued payloads and a live
connection, an auth-class failure of the retry attempt halts the loop
(`retryTimer` not rescheduled) and keeps the *rest* of the queue — but the
in-flight payload that `shift` removed is never put back: the queue shrinks
from two entries to one with nothing saved, contradicting both the claim
("no queued payload is dropped") and the source's own comment at the auth
branch. -/
theorem C3_auth_halt_drops_inflight_payload :
    (retryTimerFire .authErr
      { store := { clientsCell := none, userCell := none, syncedAt := none,
                   driveSyncAt := none, tokenCell := some "tok" },
        isOnline := true, accessToken := some "tok", saveTimeout := false,
        pendingClients := none, lastKnownCount := 2,
        failedSaveQueue := [[Json.str "oldest"], [Json.str "newer"]],
        retryTimer := true, retryDelay := 4000 }).1.failedSaveQueue
      = [[Json.str "newer"]] ∧
    (retryTimerFire .authErr
      { store := { clientsCell := none, userCell := none, syncedAt := none,
                   driveSyncAt := none, tokenCell := some "tok" },
        isOnline := true, accessToken := some "tok", saveTimeout := false,
        pendingClients := none, lastKnownCount := 2,
        failedSaveQueue := [[Json.str "oldest"], [Json.str "newer"]],
        retryTimer := true, retryDelay := 4000 }).1.retryTimer = false ∧
    (retryTimerFire .authErr
      { store := { clientsCell := none, userCell := none, syncedAt := none,
                   driveSyncAt := none, tokenCell := some "tok" },
        isOnline := true, accessToken := some "tok", saveTimeout := false,
        pendingClients := none, lastKnownCount := 2,
        failedSaveQueue := [[Json.str "oldest"], [Json.str "newer"]],
        retryTimer := true, retryDelay := 4000 }).2
      = [Effect.upload [Json.str "oldest"]] := by
  exact ⟨rfl, rfl, rfl⟩

/-- C4 as stated is false: after a `Save` of five records while offline,
the `'online'` handler runs a retry pass over the (empty) queue and a
background download sync, but performs *zero* upload attempts — not the
claimed exactly one carrying the saved payload. -/
theorem C4_reconnect_upload_counterexample :
    uploadsOf (onlineEvent 3000 (some 1500) (some [Json.num 9])
      (saveClientsSync 2000 c4Five c4Base)).2 = [] ∧
    uploadsOf (onlineEvent 3000 (some 1500) (some [Json.num 9])
      (saveClientsSync 2000 c4Five c4Base)).2 ≠ [c4Five] := by
  refine ⟨rfl, ?_⟩
  intro h
  rw [show uploadsOf (onlineEvent 3000 (some 1500) (some [Json.num 9])
      (saveClientsSync 2000 c4Five c4Base)).2 = [] from rfl] at h
  exact absurd h (by simp)

/-- C4 (amended): a `Save` issued while offline writes the collection to the
local cache, schedules nothing and touches neither the pending payload nor
the (empty) retry queue; coming back online triggers *no* upload attempt of
the saved payload — only the no-op retry pass and the download-based
background sync — and leaves no retry timer behind, whatever the remote
responds. -/
theorem C4_offline_save_then_reconnect (st : SyncState) (five : List Json)
    (now1 now2 : Nat) (md : Option Nat) (dl : Option (List Json))
    (hoff : st.isOnline = false) (hq : st.failedSaveQueue = [])
    (hpend : st.pendingClients = none) (hrt : st.retryTimer = false)
    (hne : five ≠ []) :
    (saveClientsSync now1 five st).store.clientsCell =
      some (Except.ok (Json.arr five)) ∧
    (saveClientsSync now1 five st).saveTimeout = st.saveTimeout ∧
    (saveClientsSync now1 five st).pendingClients = none ∧
    (saveClientsSync now1 five st).failedSaveQueue = [] ∧
    uploadsOf (onlineEvent now2 md dl (saveClientsSync now1 five st)).2 = [] ∧
    (onlineEvent now2 md dl (saveClientsSync now1 five st)).1.retryTimer = false ∧
    (onlineEvent now2 md dl (saveClientsSync now1 five st)).1.failedSaveQueue = [] := by
  have hsv := saveClientsSync_offline now1 five st hne hoff
  have hq' : (saveClientsSync now1 five st).failedSaveQueue = [] := by
    rw [hsv]; exact hq
  have hoe := onlineEvent_no_upload now2 md dl (saveClientsSync now1 five st) hq'
  refine ⟨by rw [hsv], by rw [hsv], ?_, hq', hoe.1, ?_, hoe.2.2⟩
  · rw [hsv]; exact hpend
  · rw [hoe.2.1, hsv]; exact hrt

/-- Witness for the amended C4. -/
theorem C4_offline_save_then_reconnect_witness :
    uploadsOf (onlineEvent 3000 (some 1500) (some [Json.num 9])
      (saveClientsSync 2000 c4Five c4Base)).2 = [] ∧
    (saveClientsSync 2000 c4Five c4Base).store.clientsCell =
      some (Except.ok (Json.arr c4Five)) := by
  have h := C4_offline_save_then_reconnect c4Base c4Five 2000 3000
    (some 1500) (some [Json.num 9]) rfl rfl rfl rfl (by simp [c4Five])
  exact ⟨h.2.2.2.2.1, h.1⟩

end Tabata
